import Mathlib

/-!
Shallow embedding of DockMan's core state-polling and caching engine
(`src/core/docker_client.py`, class `DockerClient`).

Modelling conventions:
* Python numbers (floats from `time.time()`, stats counters, percentages)
  are modelled as `ℚ`.
* The external docker backend is modelled by passing each backend call's
  outcome as an `Except String _` argument: `.ok` is a successful call,
  `.error` is a raised `APIError`/exception.
* Python's `/`, which raises `ZeroDivisionError` on a zero divisor, is
  modelled by `pydiv : ℚ → ℚ → Option ℚ` returning `none` on a zero divisor.
* Python dicts used as caches are modelled as functions to `Option`.
* `round(x, 2)` is modelled as round-half-to-even at two decimals
  (Python's rounding mode; float representation error is not modelled).
-/

namespace DockMan

/-- Models Python division, which raises `ZeroDivisionError` when the
divisor is zero (`none` = exception). -/
def pydiv (a b : ℚ) : Option ℚ :=
  if b = 0 then none else some (a / b)

/-- Round half to even at integer precision (Python `round` mode). -/
def roundHalfEven (x : ℚ) : ℤ :=
  let f : ℤ := ⌊x⌋
  let r : ℚ := x - f
  if r < 1/2 then f
  else if 1/2 < r then f + 1
  else if 2 ∣ f then f else f + 1

/-- Models Python `round(x, 2)`. -/
def round2 (x : ℚ) : ℚ :=
  (roundHalfEven (x * 100) : ℚ) / 100

/-- One raw stats sample pair as consumed in
`DockerClient._update_stats_cache` (lines 77-88): the fields of the
`stats` dict that the code reads. `mem_limit` is `none` when the
`"limit"` key is absent (the code uses `.get("limit", 1)`). -/
structure RawStats where
  cpu_total : ℚ
  precpu_total : ℚ
  system_cpu : ℚ
  presystem_cpu : ℚ
  mem_usage : ℚ
  mem_limit : Option ℚ
deriving Repr, DecidableEq

/-- Embeds lines 77-85 of `_update_stats_cache`:
`cpu_percent = (cpu_delta / system_delta * 100) if system_delta > 0 else 0.0`.
`none` would mean a raised `ZeroDivisionError`. -/
def compute_cpu_percent (curTotal prevTotal curSystem prevSystem : ℚ) : Option ℚ :=
  let cpu_delta := curTotal - prevTotal
  let system_delta := curSystem - prevSystem
  if system_delta > 0 then (pydiv cpu_delta system_delta).map (· * 100) else some 0

/-- Embeds lines 86-88 of `_update_stats_cache`: returns
`(memory_usage_MB, memory_percent)` before rounding. `none` would mean a
raised `ZeroDivisionError`. -/
def compute_memory_percent (usageBytes : ℚ) (limitBytes : Option ℚ) : Option (ℚ × ℚ) :=
  let memory_usage := usageBytes / (1024 * 1024)
  let memory_limit := (limitBytes.getD 1) / (1024 * 1024)
  if memory_limit > 0 then
    (pydiv memory_usage memory_limit).map (fun q => (memory_usage, q * 100))
  else
    some (memory_usage, 0)

/-- The per-container entry written into `_container_stats_cache`. -/
structure StatsEntry where
  cpu : ℚ
  memory : ℚ
  memory_percent : ℚ
deriving Repr, DecidableEq

/-- The body of the `try` block of `_update_stats_cache` for one container:
`none` models any exception escaping the computation. -/
def try_stats_entry (st : RawStats) : Option StatsEntry := do
  let cpu ← compute_cpu_percent st.cpu_total st.precpu_total st.system_cpu st.presystem_cpu
  let (memMB, memPct) ← compute_memory_percent st.mem_usage st.mem_limit
  pure ⟨round2 cpu, round2 memMB, round2 memPct⟩

/-- The stats-cache entry stored for one container by
`_update_stats_cache`: the computed entry when the stats fetch succeeded
and nothing raised, and the all-zero entry when the fetch raised
(`except Exception` branch, lines 94-100). -/
def stats_entry_of (res : Except String RawStats) : StatsEntry :=
  match res with
  | .ok st => (try_stats_entry st).getD ⟨0, 0, 0⟩
  | .error _ => ⟨0, 0, 0⟩

/-- One `HostPort` binding dict from `NetworkSettings.Ports` (the code
reads only the `HostPort` key). -/
structure PortBinding where
  hostPort : String
deriving Repr, DecidableEq

/-- Embeds `DockerClient._format_ports` (lines 110-121): the ports dict is
an insertion-ordered list of `(private_port, bindings)` pairs. -/
def format_ports (ports : List (String × List PortBinding)) : String :=
  if ports.isEmpty then ""
  else
    let result := ports.flatMap (fun pr =>
      if pr.2.isEmpty then [pr.1]
      else pr.2.map (fun b => b.hostPort ++ ":" ++ pr.1))
    String.intercalate ", " result

/-- Follows the spec's words for port formatting (§6): comma-separated,
`host:private` for each bound port, bare `private` for unbound ports. -/
def format_ports_spec (ports : List (String × List PortBinding)) : String :=
  String.intercalate ", " (ports.flatMap (fun pr =>
    if pr.2 = [] then [pr.1]
    else pr.2.map (fun b => b.hostPort ++ ":" ++ pr.1)))

/-- A parsed calendar datetime (timezone parsed but not displayed, as
`strftime` prints the datetime's own fields). -/
structure DateTime where
  year : Nat
  month : Nat
  day : Nat
  hour : Nat
  minute : Nat
  second : Nat
deriving Repr, DecidableEq

def is_leap (y : Nat) : Bool :=
  (y % 4 == 0 && y % 100 != 0) || y % 400 == 0

def days_in_month (y m : Nat) : Nat :=
  if m = 2 then (if is_leap y then 29 else 28)
  else if m = 4 ∨ m = 6 ∨ m = 9 ∨ m = 11 then 30
  else 31

/-- Range validation performed by Python's `datetime` constructor: an
out-of-range component raises, which `_format_datetime` turns into
`"Unknown"`. -/
def mkValidDateTime (y mo d h mi s : Nat) : Option DateTime :=
  if 1 ≤ y ∧ 1 ≤ mo ∧ mo ≤ 12 ∧ 1 ≤ d ∧ d ≤ days_in_month y mo
      ∧ h ≤ 23 ∧ mi ≤ 59 ∧ s ≤ 59 then
    some ⟨y, mo, d, h, mi, s⟩
  else
    none

def charVal (c : Char) : Nat := c.toNat - 48

/-- Read exactly `n` decimal digits, accumulating into `acc`. -/
def readDigits : Nat → Nat → List Char → Option (Nat × List Char)
  | 0, acc, cs => some (acc, cs)
  | n + 1, acc, c :: cs =>
      if c.isDigit then readDigits n (acc * 10 + charVal c) cs else none
  | _ + 1, _, [] => none

/-- Read one or two decimal digits (two when available). -/
def read1or2Digits : List Char → Option (Nat × List Char)
  | [] => none
  | [c] => if c.isDigit then some (charVal c, []) else none
  | c1 :: c2 :: rest =>
      if c1.isDigit then
        if c2.isDigit then some (charVal c1 * 10 + charVal c2, rest)
        else some (charVal c1, c2 :: rest)
      else none

/-- Skip an optional fractional-seconds part `[.,][0-9]+`. -/
def skipFraction : List Char → Option (List Char)
  | [] => some []
  | c :: rest =>
      if c = '.' ∨ c = ',' then
        match rest with
        | d :: _ => if d.isDigit then some (rest.dropWhile Char.isDigit) else none
        | [] => none
      else some (c :: rest)

/-- Parse `HH[:MM[:SS[.ffff]]]` (colon-separated form). -/
def parseTimePart (cs : List Char) : Option (Nat × Nat × Nat × List Char) := do
  let (h, cs1) ← readDigits 2 0 cs
  match cs1 with
  | ':' :: cs2 =>
      let (mi, cs3) ← readDigits 2 0 cs2
      match cs3 with
      | ':' :: cs4 =>
          let (s, cs5) ← read1or2Digits cs4
          let cs6 ← skipFraction cs5
          pure (h, mi, s, cs6)
      | _ => pure (h, mi, 0, cs3)
  | _ => pure (h, 0, 0, cs1)

/-- Parse an optional timezone designator `Z` or `±HH[:][MM]`, validating
that the offset stays below 24 hours (Python `timezone` would raise
otherwise). -/
def parseTZPart : List Char → Option (List Char)
  | [] => some []
  | 'Z' :: rest => some rest
  | c :: rest =>
      if c = '+' ∨ c = '-' then do
        let (th, cs1) ← readDigits 2 0 rest
        let cs2 := match cs1 with
          | ':' :: r => r
          | r => r
        match readDigits 2 0 cs2 with
        | some (tm, cs3) =>
            if th ≤ 23 ∧ tm ≤ 59 then some cs3 else none
        | none =>
            if th ≤ 23 then some cs2 else none
      else none

/-- Models the external `iso8601.parse_date` on the dash-separated
(extended) ISO-8601 forms the docker backend emits:
`YYYY[-MM[-DD[{T or space}HH[:MM[:SS[.ffff]]][Z or ±HH[:MM]]]]]`, with
missing components defaulting as in the library (month/day to 1, time to
00:00:00) and calendar validation as in `datetime`. The library's basic
(dash-less) forms and regex backtracking are not modelled. -/
def parse_iso8601 (s : String) : Option DateTime := do
  let cs := s.toList
  let (y, cs1) ← readDigits 4 0 cs
  match cs1 with
  | [] => mkValidDateTime y 1 1 0 0 0
  | '-' :: cs2 =>
      let (mo, cs3) ← read1or2Digits cs2
      match cs3 with
      | [] => mkValidDateTime y mo 1 0 0 0
      | '-' :: cs4 =>
          let (d, cs5) ← read1or2Digits cs4
          match cs5 with
          | [] => mkValidDateTime y mo d 0 0 0
          | sep :: cs6 =>
              if sep = 'T' ∨ sep = ' ' then do
                let (h, mi, s, cs7) ← parseTimePart cs6
                let cs8 ← parseTZPart cs7
                match cs8 with
                | [] => mkValidDateTime y mo d h mi s
                | _ => none
              else none
      | _ => none
  | _ => none

def pad2 (n : Nat) : String :=
  if n < 10 then "0" ++ toString n else toString n

def pad4 (n : Nat) : String :=
  if n < 10 then "000" ++ toString n
  else if n < 100 then "00" ++ toString n
  else if n < 1000 then "0" ++ toString n
  else toString n

/-- Models `dt.strftime("%Y-%m-%d %H:%M:%S")`. -/
def strftime_display (d : DateTime) : String :=
  pad4 d.year ++ "-" ++ pad2 d.month ++ "-" ++ pad2 d.day ++ " "
    ++ pad2 d.hour ++ ":" ++ pad2 d.minute ++ ":" ++ pad2 d.second

/-- Embeds `DockerClient._format_datetime` (lines 102-108): parse the
ISO-8601 string and reformat, degrading to `"Unknown"` on any parse
failure. -/
def format_datetime (s : String) : String :=
  match parse_iso8601 s with
  | some d => strftime_display d
  | none => "Unknown"

/-- The fields of a raw container object that `get_containers` and
`_update_stats_cache` read. `stats` is the outcome of that container's
`container.stats(stream=False)` backend call (`.error` = it raised). -/
structure RawContainer where
  id : String
  name : String
  status : String
  image_tags : List String
  ports : List (String × List PortBinding)
  created : String
  labels : List (String × String)
  stats : Except String RawStats
deriving Repr

/-- One element of `self._cache["containers"]["data"]`. -/
structure ContainerRecord where
  id : String
  name : String
  status : String
  image : String
  ports : String
  cpu : ℚ
  memory : ℚ
  memory_percent : ℚ
  created : String
  labels : List (String × String)
deriving Repr, DecidableEq

/-- The fields of a raw image object that `get_images` reads. -/
structure RawImage where
  id : String
  tags : List String
  size : ℚ
  created : String
deriving Repr, DecidableEq

/-- One element of `self._cache["images"]["data"]`. -/
structure ImageRecord where
  id : String
  tags : List String
  size : ℚ
  created : String
deriving Repr, DecidableEq

/-- The fields of a raw volume object that `get_volumes` reads;
`created_at` is `none` when `attrs` lacks the `"CreatedAt"` key. -/
structure RawVolume where
  name : String
  driver : String
  mountpoint : String
  created_at : Option String
deriving Repr, DecidableEq

/-- One element of `self._cache["volumes"]["data"]`. -/
structure VolumeRecord where
  name : String
  driver : String
  mountpoint : String
  created : String
deriving Repr, DecidableEq

/-- The fields of a raw network object that `get_networks` reads;
`created` is `none` when `attrs` lacks the `"Created"` key. -/
structure RawNetwork where
  id : String
  name : String
  driver : String
  created : Option String
deriving Repr, DecidableEq

/-- One element of `self._cache["networks"]["data"]`. -/
structure NetworkRecord where
  id : String
  name : String
  driver : String
  created : String
deriving Repr, DecidableEq

/-- One slot of `self._cache`: `{"data": [...], "last_update": t}`. -/
structure CacheSlot (α : Type) where
  data : List α
  last_update : ℚ
deriving Repr, DecidableEq

/-- The mutable state of a `DockerClient` instance: the four cache slots
of `self._cache` plus `self._container_stats_cache` (a dict modelled as a
function to `Option`). -/
structure DCState where
  containers_slot : CacheSlot ContainerRecord
  images_slot : CacheSlot ImageRecord
  volumes_slot : CacheSlot VolumeRecord
  networks_slot : CacheSlot NetworkRecord
  container_stats_cache : String → Option StatsEntry

/-- Constant `self._cache_duration = 5` (seconds). -/
def cache_duration : ℚ := 5

/-- The state built by `DockerClient.__init__` (lines 27-33): all four
slots empty with `last_update = 0`, stats cache empty. -/
def init_state : DCState where
  containers_slot := ⟨[], 0⟩
  images_slot := ⟨[], 0⟩
  volumes_slot := ⟨[], 0⟩
  networks_slot := ⟨[], 0⟩
  container_stats_cache := fun _ => none

/-- Embeds `DockerClient._update_stats_cache` (lines 72-100): for each
container in order, overwrite its dict entry with the computed stats
entry, or the all-zero entry when its stats fetch raised. -/
def update_stats_cache (containers : List RawContainer)
    (cache : String → Option StatsEntry) : String → Option StatsEntry :=
  containers.foldl
    (fun acc c => fun k => if k = c.id then some (stats_entry_of c.stats) else acc k)
    cache

/-- The record-building dict comprehension of `get_containers`
(lines 50-64), reading the just-updated stats cache with
`.get(c.id, default)`. -/
def mkContainerRecord (cache : String → Option StatsEntry)
    (c : RawContainer) : ContainerRecord where
  id := c.id.take 12
  name := c.name
  status := c.status
  image := match c.image_tags with
    | [] => "unknown"
    | t :: _ => t
  ports := format_ports c.ports
  cpu := ((cache c.id).map StatsEntry.cpu).getD 0
  memory := ((cache c.id).map StatsEntry.memory).getD 0
  memory_percent := ((cache c.id).map StatsEntry.memory_percent).getD 0
  created := format_datetime c.created
  labels := c.labels

/-- The record-building comprehension of `get_images` (lines 186-194). -/
def mkImageRecord (img : RawImage) : ImageRecord where
  id := img.id.take 12
  tags := if img.tags.isEmpty then ["<none>"] else img.tags
  size := round2 (img.size / (1024 * 1024))
  created := format_datetime img.created

/-- The record-building comprehension of `get_volumes` (lines 221-229):
`created` is the raw `attrs.get("CreatedAt", "Unknown")`, not re-parsed. -/
def mkVolumeRecord (vol : RawVolume) : VolumeRecord where
  name := vol.name
  driver := vol.driver
  mountpoint := vol.mountpoint
  created := vol.created_at.getD "Unknown"

/-- The record-building comprehension of `get_networks` (lines 257-265):
`created` is the raw `attrs.get("Created", "Unknown")`, not re-parsed. -/
def mkNetworkRecord (net : RawNetwork) : NetworkRecord where
  id := net.id.take 12
  name := net.name
  driver := net.driver
  created := net.created.getD "Unknown"

/-- Embeds `DockerClient.get_containers` (lines 40-70). `now` is
`time.time()`; `backend` is the outcome of
`self.client.containers.list(all=all)` (together with the attribute
reads on the listed containers). Returns the raised-or-returned value,
the post-call state, and whether a backend call was issued. -/
def get_containers (s : DCState) (now : ℚ)
    (backend : Except String (List RawContainer)) :
    Except String (List ContainerRecord) × DCState × Bool :=
  if now - s.containers_slot.last_update < cache_duration then
    (.ok s.containers_slot.data, s, false)
  else
    match backend with
    | .ok containers =>
        let cache := update_stats_cache containers s.container_stats_cache
        let recs := containers.map (mkContainerRecord cache)
        (.ok recs,
         { s with containers_slot := ⟨recs, now⟩, container_stats_cache := cache },
         true)
    | .error e =>
        (.error ("Error fetching containers: " ++ e), s, true)

/-- Embeds `DockerClient.get_images` (lines 177-200). -/
def get_images (s : DCState) (now : ℚ)
    (backend : Except String (List RawImage)) :
    Except String (List ImageRecord) × DCState × Bool :=
  if now - s.images_slot.last_update < cache_duration then
    (.ok s.images_slot.data, s, false)
  else
    match backend with
    | .ok images =>
        let recs := images.map mkImageRecord
        (.ok recs, { s with images_slot := ⟨recs, now⟩ }, true)
    | .error e =>
        (.error ("Error fetching images: " ++ e), s, true)

/-- Embeds `DockerClient.get_volumes` (lines 212-235). -/
def get_volumes (s : DCState) (now : ℚ)
    (backend : Except String (List RawVolume)) :
    Except String (List VolumeRecord) × DCState × Bool :=
  if now - s.volumes_slot.last_update < cache_duration then
    (.ok s.volumes_slot.data, s, false)
  else
    match backend with
    | .ok volumes =>
        let recs := volumes.map mkVolumeRecord
        (.ok recs, { s with volumes_slot := ⟨recs, now⟩ }, true)
    | .error e =>
        (.error ("Error fetching volumes: " ++ e), s, true)

/-- Embeds `DockerClient.get_networks` (lines 248-271). -/
def get_networks (s : DCState) (now : ℚ)
    (backend : Except String (List RawNetwork)) :
    Except String (List NetworkRecord) × DCState × Bool :=
  if now - s.networks_slot.last_update < cache_duration then
    (.ok s.networks_slot.data, s, false)
  else
    match backend with
    | .ok networks =>
        let recs := networks.map mkNetworkRecord
        (.ok recs, { s with networks_slot := ⟨recs, now⟩ }, true)
    | .error e =>
        (.error ("Error fetching networks: " ++ e), s, true)

/-- Embeds `DockerClient.start_container` (lines 123-132). `backend` is
the combined outcome of the `containers.get` + `container.start` calls;
on success the containers slot's `last_update` is set to 0. -/
def start_container (s : DCState) (backend : Except String Unit) :
    Except String Unit × DCState :=
  match backend with
  | .ok _ =>
      (.ok (), { s with containers_slot := ⟨s.containers_slot.data, 0⟩ })
  | .error e => (.error ("Error starting container: " ++ e), s)

/-- Embeds `DockerClient.stop_container` (lines 134-143). -/
def stop_container (s : DCState) (backend : Except String Unit) :
    Except String Unit × DCState :=
  match backend with
  | .ok _ =>
      (.ok (), { s with containers_slot := ⟨s.containers_slot.data, 0⟩ })
  | .error e => (.error ("Error stopping container: " ++ e), s)

/-- Embeds `DockerClient.restart_container` (lines 145-154). -/
def restart_container (s : DCState) (backend : Except String Unit) :
    Except String Unit × DCState :=
  match backend with
  | .ok _ =>
      (.ok (), { s with containers_slot := ⟨s.containers_slot.data, 0⟩ })
  | .error e => (.error ("Error restarting container: " ++ e), s)

/-- Embeds `DockerClient.remove_container` (lines 156-165). -/
def remove_container (s : DCState) (backend : Except String Unit) :
    Except String Unit × DCState :=
  match backend with
  | .ok _ =>
      (.ok (), { s with containers_slot := ⟨s.containers_slot.data, 0⟩ })
  | .error e => (.error ("Error removing container: " ++ e), s)

/-- Embeds `DockerClient.get_container_logs` (lines 167-175): a pure
passthrough of the backend outcome; the cache is never touched. -/
def get_container_logs (s : DCState) (backend : Except String String) :
    Except String String × DCState :=
  match backend with
  | .ok logs => (.ok logs, s)
  | .error e => (.error ("Error fetching logs: " ++ e), s)

/-- Embeds `DockerClient.remove_image` (lines 202-210). -/
def remove_image (s : DCState) (backend : Except String Unit) :
    Except String Unit × DCState :=
  match backend with
  | .ok _ =>
      (.ok (), { s with images_slot := ⟨s.images_slot.data, 0⟩ })
  | .error e => (.error ("Error removing image: " ++ e), s)

/-- Embeds `DockerClient.remove_volume` (lines 237-246). -/
def remove_volume (s : DCState) (backend : Except String Unit) :
    Except String Unit × DCState :=
  match backend with
  | .ok _ =>
      (.ok (), { s with volumes_slot := ⟨s.volumes_slot.data, 0⟩ })
  | .error e => (.error ("Error removing volume: " ++ e), s)

/-- Embeds `DockerClient.remove_network` (lines 273-282). -/
def remove_network (s : DCState) (backend : Except String Unit) :
    Except String Unit × DCState :=
  match backend with
  | .ok _ =>
      (.ok (), { s with networks_slot := ⟨s.networks_slot.data, 0⟩ })
  | .error e => (.error ("Error removing network: " ++ e), s)

lemma get_containers_fresh (s : DCState) (now : ℚ) (b : Except String (List RawContainer))
    (h : now - s.containers_slot.last_update < cache_duration) :
    get_containers s now b = (.ok s.containers_slot.data, s, false) := by
  simp [get_containers, h]

lemma get_containers_stale_ok (s : DCState) (now : ℚ) (rc : List RawContainer)
    (h : ¬ (now - s.containers_slot.last_update < cache_duration)) :
    get_containers s now (.ok rc)
      = (.ok (rc.map (mkContainerRecord (update_stats_cache rc s.container_stats_cache))),
         { s with
             containers_slot :=
               ⟨rc.map (mkContainerRecord (update_stats_cache rc s.container_stats_cache)), now⟩,
             container_stats_cache := update_stats_cache rc s.container_stats_cache },
         true) := by
  simp [get_containers, h]

lemma get_containers_stale_err (s : DCState) (now : ℚ) (e : String)
    (h : ¬ (now - s.containers_slot.last_update < cache_duration)) :
    get_containers s now (.error e)
      = (.error ("Error fetching containers: " ++ e), s, true) := by
  simp [get_containers, h]

lemma get_images_fresh (s : DCState) (now : ℚ) (b : Except String (List RawImage))
    (h : now - s.images_slot.last_update < cache_duration) :
    get_images s now b = (.ok s.images_slot.data, s, false) := by
  simp [get_images, h]

lemma get_images_stale_ok (s : DCState) (now : ℚ) (ri : List RawImage)
    (h : ¬ (now - s.images_slot.last_update < cache_duration)) :
    get_images s now (.ok ri)
      = (.ok (ri.map mkImageRecord),
         { s with images_slot := ⟨ri.map mkImageRecord, now⟩ }, true) := by
  simp [get_images, h]

lemma get_images_stale_err (s : DCState) (now : ℚ) (e : String)
    (h : ¬ (now - s.images_slot.last_update < cache_duration)) :
    get_images s now (.error e)
      = (.error ("Error fetching images: " ++ e), s, true) := by
  simp [get_images, h]

lemma get_volumes_fresh (s : DCState) (now : ℚ) (b : Except String (List RawVolume))
    (h : now - s.volumes_slot.last_update < cache_duration) :
    get_volumes s now b = (.ok s.volumes_slot.data, s, false) := by
  simp [get_volumes, h]

lemma get_volumes_stale_ok (s : DCState) (now : ℚ) (rv : List RawVolume)
    (h : ¬ (now - s.volumes_slot.last_update < cache_duration)) :
    get_volumes s now (.ok rv)
      = (.ok (rv.map mkVolumeRecord),
         { s with volumes_slot := ⟨rv.map mkVolumeRecord, now⟩ }, true) := by
  simp [get_volumes, h]

lemma get_volumes_stale_err (s : DCState) (now : ℚ) (e : String)
    (h : ¬ (now - s.volumes_slot.last_update < cache_duration)) :
    get_volumes s now (.error e)
      = (.error ("Error fetching volumes: " ++ e), s, true) := by
  simp [get_volumes, h]

lemma get_networks_fresh (s : DCState) (now : ℚ) (b : Except String (List RawNetwork))
    (h : now - s.networks_slot.last_update < cache_duration) :
    get_networks s now b = (.ok s.networks_slot.data, s, false) := by
  simp [get_networks, h]

lemma get_networks_stale_ok (s : DCState) (now : ℚ) (rn : List RawNetwork)
    (h : ¬ (now - s.networks_slot.last_update < cache_duration)) :
    get_networks s now (.ok rn)
      = (.ok (rn.map mkNetworkRecord),
         { s with networks_slot := ⟨rn.map mkNetworkRecord, now⟩ }, true) := by
  simp [get_networks, h]

lemma get_networks_stale_err (s : DCState) (now : ℚ) (e : String)
    (h : ¬ (now - s.networks_slot.last_update < cache_duration)) :
    get_networks s now (.error e)
      = (.error ("Error fetching networks: " ++ e), s, true) := by
  simp [get_networks, h]

/-- A stale containers read at `now₁` issues a fetch, and a second read at
`now₂` within the TTL serves the same cached records with no backend
call, fixing the post-fetch state. -/
def ttl_idempotent_containers (s : DCState) (now₁ now₂ : ℚ)
    (rc : List RawContainer) (b₂ : Except String (List RawContainer)) : Prop :=
  (get_containers s now₁ (.ok rc)).2.2 = true
  ∧ (get_containers s now₁ (.ok rc)).1
      = .ok ((get_containers s now₁ (.ok rc)).2.1).containers_slot.data
  ∧ get_containers ((get_containers s now₁ (.ok rc)).2.1) now₂ b₂
      = (.ok ((get_containers s now₁ (.ok rc)).2.1).containers_slot.data,
         (get_containers s now₁ (.ok rc)).2.1, false)

/-- Same TTL-idempotence shape for the images slot. -/
def ttl_idempotent_images (s : DCState) (now₁ now₂ : ℚ)
    (ri : List RawImage) (b₂ : Except String (List RawImage)) : Prop :=
  (get_images s now₁ (.ok ri)).2.2 = true
  ∧ (get_images s now₁ (.ok ri)).1
      = .ok ((get_images s now₁ (.ok ri)).2.1).images_slot.data
  ∧ get_images ((get_images s now₁ (.ok ri)).2.1) now₂ b₂
      = (.ok ((get_images s now₁ (.ok ri)).2.1).images_slot.data,
         (get_images s now₁ (.ok ri)).2.1, false)

/-- Same TTL-idempotence shape for the volumes slot. -/
def ttl_idempotent_volumes (s : DCState) (now₁ now₂ : ℚ)
    (rv : List RawVolume) (b₂ : Except String (List RawVolume)) : Prop :=
  (get_volumes s now₁ (.ok rv)).2.2 = true
  ∧ (get_volumes s now₁ (.ok rv)).1
      = .ok ((get_volumes s now₁ (.ok rv)).2.1).volumes_slot.data
  ∧ get_volumes ((get_volumes s now₁ (.ok rv)).2.1) now₂ b₂
      = (.ok ((get_volumes s now₁ (.ok rv)).2.1).volumes_slot.data,
         (get_volumes s now₁ (.ok rv)).2.1, false)

/-- Same TTL-idempotence shape for the networks slot. -/
def ttl_idempotent_networks (s : DCState) (now₁ now₂ : ℚ)
    (rn : List RawNetwork) (b₂ : Except String (List RawNetwork)) : Prop :=
  (get_networks s now₁ (.ok rn)).2.2 = true
  ∧ (get_networks s now₁ (.ok rn)).1
      = .ok ((get_networks s now₁ (.ok rn)).2.1).networks_slot.data
  ∧ get_networks ((get_networks s now₁ (.ok rn)).2.1) now₂ b₂
      = (.ok ((get_networks s now₁ (.ok rn)).2.1).networks_slot.data,
         (get_networks s now₁ (.ok rn)).2.1, false)

/-- Claim C1: for every resource kind, a stale read at `now₁` performs the
single backend fetch, returns exactly the records it caches, and a second
read at any `now₂` within the 5-second TTL returns that identical cached
record sequence, leaves the state unchanged, and issues no backend call. -/
theorem C1_ttl_read_idempotent (s : DCState) (now₁ now₂ : ℚ)
    (rc : List RawContainer) (ri : List RawImage) (rv : List RawVolume) (rn : List RawNetwork)
    (bc : Except String (List RawContainer)) (bi : Except String (List RawImage))
    (bv : Except String (List RawVolume)) (bn : Except String (List RawNetwork))
    (hc : cache_duration ≤ now₁ - s.containers_slot.last_update)
    (hi : cache_duration ≤ now₁ - s.images_slot.last_update)
    (hv : cache_duration ≤ now₁ - s.volumes_slot.last_update)
    (hn : cache_duration ≤ now₁ - s.networks_slot.last_update)
    (h₁ : now₁ ≤ now₂) (h₂ : now₂ < now₁ + cache_duration) :
    ttl_idempotent_containers s now₁ now₂ rc bc
    ∧ ttl_idempotent_images s now₁ now₂ ri bi
    ∧ ttl_idempotent_volumes s now₁ now₂ rv bv
    ∧ ttl_idempotent_networks s now₁ now₂ rn bn := by
  refine ⟨?_, ?_, ?_, ?_⟩
  · rw [ttl_idempotent_containers, get_containers_stale_ok s now₁ rc (not_lt.mpr hc)]
    exact ⟨rfl, rfl, get_containers_fresh _ now₂ bc (by simp only []; linarith)⟩
  · rw [ttl_idempotent_images, get_images_stale_ok s now₁ ri (not_lt.mpr hi)]
    exact ⟨rfl, rfl, get_images_fresh _ now₂ bi (by simp only []; linarith)⟩
  · rw [ttl_idempotent_volumes, get_volumes_stale_ok s now₁ rv (not_lt.mpr hv)]
    exact ⟨rfl, rfl, get_volumes_fresh _ now₂ bv (by simp only []; linarith)⟩
  · rw [ttl_idempotent_networks, get_networks_stale_ok s now₁ rn (not_lt.mpr hn)]
    exact ⟨rfl, rfl, get_networks_fresh _ now₂ bn (by simp only []; linarith)⟩

/-- Witness for claim C1 at a concrete input: the initial state (all
slots stale), first read at t=10, second at t=12. -/
theorem C1_ttl_read_idempotent_witness :
    (cache_duration ≤ (10 : ℚ) - init_state.containers_slot.last_update)
    ∧ (cache_duration ≤ (10 : ℚ) - init_state.images_slot.last_update)
    ∧ (cache_duration ≤ (10 : ℚ) - init_state.volumes_slot.last_update)
    ∧ (cache_duration ≤ (10 : ℚ) - init_state.networks_slot.last_update)
    ∧ ((10 : ℚ) ≤ 12) ∧ ((12 : ℚ) < 10 + cache_duration)
    ∧ (ttl_idempotent_containers init_state 10 12 [] (.ok [])
       ∧ ttl_idempotent_images init_state 10 12 [] (.ok [])
       ∧ ttl_idempotent_volumes init_state 10 12 [] (.ok [])
       ∧ ttl_idempotent_networks init_state 10 12 [] (.ok [])) :=
  ⟨by norm_num [cache_duration, init_state], by norm_num [cache_duration, init_state],
   by norm_num [cache_duration, init_state], by norm_num [cache_duration, init_state],
   by norm_num, by norm_num [cache_duration],
   C1_ttl_read_idempotent init_state 10 12 [] [] [] [] (.ok []) (.ok []) (.ok []) (.ok [])
     (by norm_num [cache_duration, init_state]) (by norm_num [cache_duration, init_state])
     (by norm_num [cache_duration, init_state]) (by norm_num [cache_duration, init_state])
     (by norm_num) (by norm_num [cache_duration])⟩

/-- The containers slot is invalidated (`last_update = 0`) and the next
containers read at `now` issues a backend fetch returning freshly built
records. -/
def next_read_fetches_containers (s' : DCState) (now : ℚ) (rc : List RawContainer) : Prop :=
  s'.containers_slot.last_update = 0
  ∧ (get_containers s' now (.ok rc)).2.2 = true
  ∧ (get_containers s' now (.ok rc)).1
      = .ok (rc.map (mkContainerRecord (update_stats_cache rc s'.container_stats_cache)))

/-- Same invalidation shape for the images slot. -/
def next_read_fetches_images (s' : DCState) (now : ℚ) (ri : List RawImage) : Prop :=
  s'.images_slot.last_update = 0
  ∧ (get_images s' now (.ok ri)).2.2 = true
  ∧ (get_images s' now (.ok ri)).1 = .ok (ri.map mkImageRecord)

/-- Same invalidation shape for the volumes slot. -/
def next_read_fetches_volumes (s' : DCState) (now : ℚ) (rv : List RawVolume) : Prop :=
  s'.volumes_slot.last_update = 0
  ∧ (get_volumes s' now (.ok rv)).2.2 = true
  ∧ (get_volumes s' now (.ok rv)).1 = .ok (rv.map mkVolumeRecord)

/-- Same invalidation shape for the networks slot. -/
def next_read_fetches_networks (s' : DCState) (now : ℚ) (rn : List RawNetwork) : Prop :=
  s'.networks_slot.last_update = 0
  ∧ (get_networks s' now (.ok rn)).2.2 = true
  ∧ (get_networks s' now (.ok rn)).1 = .ok (rn.map mkNetworkRecord)

lemma next_read_fetches_containers_of (s' : DCState) (now : ℚ) (rc : List RawContainer)
    (h0 : s'.containers_slot.last_update = 0) (hnow : cache_duration ≤ now) :
    next_read_fetches_containers s' now rc := by
  have h' : ¬ (now - s'.containers_slot.last_update < cache_duration) := by
    rw [h0, sub_zero]; exact not_lt.mpr hnow
  exact ⟨h0, by rw [get_containers_stale_ok _ _ _ h'], by rw [get_containers_stale_ok _ _ _ h']⟩

lemma next_read_fetches_images_of (s' : DCState) (now : ℚ) (ri : List RawImage)
    (h0 : s'.images_slot.last_update = 0) (hnow : cache_duration ≤ now) :
    next_read_fetches_images s' now ri := by
  have h' : ¬ (now - s'.images_slot.last_update < cache_duration) := by
    rw [h0, sub_zero]; exact not_lt.mpr hnow
  exact ⟨h0, by rw [get_images_stale_ok _ _ _ h'], by rw [get_images_stale_ok _ _ _ h']⟩

lemma next_read_fetches_volumes_of (s' : DCState) (now : ℚ) (rv : List RawVolume)
    (h0 : s'.volumes_slot.last_update = 0) (hnow : cache_duration ≤ now) :
    next_read_fetches_volumes s' now rv := by
  have h' : ¬ (now - s'.volumes_slot.last_update < cache_duration) := by
    rw [h0, sub_zero]; exact not_lt.mpr hnow
  exact ⟨h0, by rw [get_volumes_stale_ok _ _ _ h'], by rw [get_volumes_stale_ok _ _ _ h']⟩

lemma next_read_fetches_networks_of (s' : DCState) (now : ℚ) (rn : List RawNetwork)
    (h0 : s'.networks_slot.last_update = 0) (hnow : cache_duration ≤ now) :
    next_read_fetches_networks s' now rn := by
  have h' : ¬ (now - s'.networks_slot.last_update < cache_duration) := by
    rw [h0, sub_zero]; exact not_lt.mpr hnow
  exact ⟨h0, by rw [get_networks_stale_ok _ _ _ h'], by rw [get_networks_stale_ok _ _ _ h']⟩

/-- Claim C2: every successful mutating operation resets its kind's
`last_update` to 0, so the very next read of that kind (at any wall-clock
time `now` at least one TTL past the epoch) performs a fresh backend
fetch and returns freshly built records rather than pre-mutation cached
data. -/
theorem C2_mutate_invalidates (s : DCState) (now : ℚ)
    (rc : List RawContainer) (ri : List RawImage) (rv : List RawVolume) (rn : List RawNetwork)
    (hnow : cache_duration ≤ now) :
    next_read_fetches_containers (start_container s (.ok ())).2 now rc
    ∧ next_read_fetches_containers (stop_container s (.ok ())).2 now rc
    ∧ next_read_fetches_containers (restart_container s (.ok ())).2 now rc
    ∧ next_read_fetches_containers (remove_container s (.ok ())).2 now rc
    ∧ next_read_fetches_images (remove_image s (.ok ())).2 now ri
    ∧ next_read_fetches_volumes (remove_volume s (.ok ())).2 now rv
    ∧ next_read_fetches_networks (remove_network s (.ok ())).2 now rn :=
  ⟨next_read_fetches_containers_of _ now rc rfl hnow,
   next_read_fetches_containers_of _ now rc rfl hnow,
   next_read_fetches_containers_of _ now rc rfl hnow,
   next_read_fetches_containers_of _ now rc rfl hnow,
   next_read_fetches_images_of _ now ri rfl hnow,
   next_read_fetches_volumes_of _ now rv rfl hnow,
   next_read_fetches_networks_of _ now rn rfl hnow⟩

/-- Witness for claim C2 at a concrete input: mutate from the initial
state and read again at t=10. -/
theorem C2_mutate_invalidates_witness :
    (cache_duration ≤ (10 : ℚ))
    ∧ (next_read_fetches_containers (start_container init_state (.ok ())).2 10 []
       ∧ next_read_fetches_containers (stop_container init_state (.ok ())).2 10 []
       ∧ next_read_fetches_containers (restart_container init_state (.ok ())).2 10 []
       ∧ next_read_fetches_containers (remove_container init_state (.ok ())).2 10 []
       ∧ next_read_fetches_images (remove_image init_state (.ok ())).2 10 []
       ∧ next_read_fetches_volumes (remove_volume init_state (.ok ())).2 10 []
       ∧ next_read_fetches_networks (remove_network init_state (.ok ())).2 10 []) :=
  ⟨by norm_num [cache_duration],
   C2_mutate_invalidates init_state 10 [] [] [] [] (by norm_num [cache_duration])⟩

/-- A failed containers listing raises the wrapped fetch error and leaves
the whole client state exactly as it was. -/
def fetch_error_preserves_containers (s : DCState) (now : ℚ) (e : String) : Prop :=
  get_containers s now (.error e) = (.error ("Error fetching containers: " ++ e), s, true)

/-- Same failed-fetch shape for images. -/
def fetch_error_preserves_images (s : DCState) (now : ℚ) (e : String) : Prop :=
  get_images s now (.error e) = (.error ("Error fetching images: " ++ e), s, true)

/-- Same failed-fetch shape for volumes. -/
def fetch_error_preserves_volumes (s : DCState) (now : ℚ) (e : String) : Prop :=
  get_volumes s now (.error e) = (.error ("Error fetching volumes: " ++ e), s, true)

/-- Same failed-fetch shape for networks. -/
def fetch_error_preserves_networks (s : DCState) (now : ℚ) (e : String) : Prop :=
  get_networks s now (.error e) = (.error ("Error fetching networks: " ++ e), s, true)

/-- Claim C6: for every resource kind, when the backend listing call of a
stale read fails, the read raises the wrapped error and the state —
cached data, `last_update`, stats cache — is left exactly as it was, so
the slot stays stale and the next read retries the fetch. -/
theorem C6_fetch_error_cache_untouched (s : DCState) (now : ℚ) (e : String)
    (hc : cache_duration ≤ now - s.containers_slot.last_update)
    (hi : cache_duration ≤ now - s.images_slot.last_update)
    (hv : cache_duration ≤ now - s.volumes_slot.last_update)
    (hn : cache_duration ≤ now - s.networks_slot.last_update) :
    fetch_error_preserves_containers s now e
    ∧ fetch_error_preserves_images s now e
    ∧ fetch_error_preserves_volumes s now e
    ∧ fetch_error_preserves_networks s now e :=
  ⟨get_containers_stale_err s now e (not_lt.mpr hc),
   get_images_stale_err s now e (not_lt.mpr hi),
   get_volumes_stale_err s now e (not_lt.mpr hv),
   get_networks_stale_err s now e (not_lt.mpr hn)⟩

/-- Witness for claim C6 at a concrete input: the initial state, a read
at t=10 whose backend listing fails. -/
theorem C6_fetch_error_cache_untouched_witness :
    (cache_duration ≤ (10 : ℚ) - init_state.containers_slot.last_update)
    ∧ (cache_duration ≤ (10 : ℚ) - init_state.images_slot.last_update)
    ∧ (cache_duration ≤ (10 : ℚ) - init_state.volumes_slot.last_update)
    ∧ (cache_duration ≤ (10 : ℚ) - init_state.networks_slot.last_update)
    ∧ (fetch_error_preserves_containers init_state 10 "socket closed"
       ∧ fetch_error_preserves_images init_state 10 "socket closed"
       ∧ fetch_error_preserves_volumes init_state 10 "socket closed"
       ∧ fetch_error_preserves_networks init_state 10 "socket closed") :=
  ⟨by norm_num [cache_duration, init_state], by norm_num [cache_duration, init_state],
   by norm_num [cache_duration, init_state], by norm_num [cache_duration, init_state],
   C6_fetch_error_cache_untouched init_state 10 "socket closed"
     (by norm_num [cache_duration, init_state]) (by norm_num [cache_duration, init_state])
     (by norm_num [cache_duration, init_state]) (by norm_num [cache_duration, init_state])⟩

/-- The three cache slots other than the containers slot are unchanged
between states `s` and `s'`. -/
def preserves_non_container_slots (s s' : DCState) : Prop :=
  s'.images_slot = s.images_slot
  ∧ s'.volumes_slot = s.volumes_slot
  ∧ s'.networks_slot = s.networks_slot

/-- The three cache slots other than the images slot are unchanged. -/
def preserves_non_image_slots (s s' : DCState) : Prop :=
  s'.containers_slot = s.containers_slot
  ∧ s'.volumes_slot = s.volumes_slot
  ∧ s'.networks_slot = s.networks_slot

/-- The three cache slots other than the volumes slot are unchanged. -/
def preserves_non_volume_slots (s s' : DCState) : Prop :=
  s'.containers_slot = s.containers_slot
  ∧ s'.images_slot = s.images_slot
  ∧ s'.networks_slot = s.networks_slot

/-- The three cache slots other than the networks slot are unchanged. -/
def preserves_non_network_slots (s s' : DCState) : Prop :=
  s'.containers_slot = s.containers_slot
  ∧ s'.images_slot = s.images_slot
  ∧ s'.volumes_slot = s.volumes_slot

/-- Claim C9: every operation — the four reads, the seven mutators, and
the logs fetch — leaves the cache slots (data and `last_update`) of the
three resource kinds it does not target unchanged, on every code path. -/
theorem C9_frame_other_slots (s : DCState) (now : ℚ)
    (bc : Except String (List RawContainer)) (bi : Except String (List RawImage))
    (bv : Except String (List RawVolume)) (bn : Except String (List RawNetwork))
    (r : Except String Unit) (lg : Except String String) :
    preserves_non_container_slots s (get_containers s now bc).2.1
    ∧ preserves_non_image_slots s (get_images s now bi).2.1
    ∧ preserves_non_volume_slots s (get_volumes s now bv).2.1
    ∧ preserves_non_network_slots s (get_networks s now bn).2.1
    ∧ preserves_non_container_slots s (start_container s r).2
    ∧ preserves_non_container_slots s (stop_container s r).2
    ∧ preserves_non_container_slots s (restart_container s r).2
    ∧ preserves_non_container_slots s (remove_container s r).2
    ∧ preserves_non_container_slots s (get_container_logs s lg).2
    ∧ preserves_non_image_slots s (remove_image s r).2
    ∧ preserves_non_volume_slots s (remove_volume s r).2
    ∧ preserves_non_network_slots s (remove_network s r).2 := by
  refine ⟨?_, ?_, ?_, ?_, ?_, ?_, ?_, ?_, ?_, ?_, ?_, ?_⟩
  · unfold get_containers preserves_non_container_slots
    split
    · exact ⟨rfl, rfl, rfl⟩
    · cases bc <;> exact ⟨rfl, rfl, rfl⟩
  · unfold get_images preserves_non_image_slots
    split
    · exact ⟨rfl, rfl, rfl⟩
    · cases bi <;> exact ⟨rfl, rfl, rfl⟩
  · unfold get_volumes preserves_non_volume_slots
    split
    · exact ⟨rfl, rfl, rfl⟩
    · cases bv <;> exact ⟨rfl, rfl, rfl⟩
  · unfold get_networks preserves_non_network_slots
    split
    · exact ⟨rfl, rfl, rfl⟩
    · cases bn <;> exact ⟨rfl, rfl, rfl⟩
  · cases r <;> exact ⟨rfl, rfl, rfl⟩
  · cases r <;> exact ⟨rfl, rfl, rfl⟩
  · cases r <;> exact ⟨rfl, rfl, rfl⟩
  · cases r <;> exact ⟨rfl, rfl, rfl⟩
  · cases lg <;> exact ⟨rfl, rfl, rfl⟩
  · cases r <;> exact ⟨rfl, rfl, rfl⟩
  · cases r <;> exact ⟨rfl, rfl, rfl⟩
  · cases r <;> exact ⟨rfl, rfl, rfl⟩

/-- Claim C3, counterexample: with `limitBytes` absent and
`usageBytes = 1048576` (1 MiB), the computation returns percent
`104857600`, not `0.0` — the absent-limit guard substitutes 1 byte, it
does not zero the percent. -/
theorem C3_counterexample :
    compute_memory_percent 1048576 none = some (1, 104857600)
    ∧ (104857600 : ℚ) ≠ 0 := by
  constructor
  · norm_num [compute_memory_percent, pydiv]
  · norm_num

/-- Claim C3 (amended): the memory-percent computation never divides by
zero or raises; for `limitBytes = 0` the percent is `0.0`; for an absent
limit the guard treats it as 1 byte, yielding the degenerate percent
`usageBytes * 100`. -/
theorem C3_memory_percent_guard (usage : ℚ) (limit : Option ℚ) :
    (compute_memory_percent usage limit).isSome = true
    ∧ compute_memory_percent usage (some 0) = some (usage / (1024 * 1024), 0)
    ∧ compute_memory_percent usage none = some (usage / (1024 * 1024), usage * 100) := by
  refine ⟨?_, ?_, ?_⟩
  · simp only [compute_memory_percent]
    split_ifs with h
    · simp [pydiv, ne_of_gt h]
    · simp
  · simp [compute_memory_percent]
  · norm_num [compute_memory_percent, pydiv]
    field_simp

/-- Claim C4: for every counter snapshot, the CPU-percent computation
returns `(cpuDelta / systemDelta) * 100` when `systemDelta > 0` and `0.0`
otherwise; it always returns a value (never divides by zero, never
raises). -/
theorem C4_cpu_percent_total (curTotal prevTotal curSystem prevSystem : ℚ) :
    compute_cpu_percent curTotal prevTotal curSystem prevSystem
      = some (if 0 < curSystem - prevSystem
              then (curTotal - prevTotal) / (curSystem - prevSystem) * 100
              else 0) := by
  simp only [compute_cpu_percent, gt_iff_lt]
  split_ifs with h
  · simp [pydiv, ne_of_gt h]
  · rfl

/-- Claim C7, counterexample: a volume whose backend `CreatedAt` is the
unparsable string `"not-a-timestamp"` is returned with that raw string as
its `created` field — not reformatted and not `"Unknown"` — so the
all-four-kinds reformatting claim fails on volumes (and likewise
networks). -/
theorem C7_counterexample :
    (get_volumes init_state 10 (.ok [⟨"v1", "local", "/mnt/v1", some "not-a-timestamp"⟩])).1
      = .ok [{ name := "v1", driver := "local", mountpoint := "/mnt/v1",
               created := "not-a-timestamp" }]
    ∧ format_datetime "not-a-timestamp" = "Unknown"
    ∧ "not-a-timestamp" ≠ "Unknown" := by
  refine ⟨?_, by decide, by decide⟩
  norm_num [get_volumes, init_state, cache_duration, mkVolumeRecord]

/-- Claim C7 (amended): container and image records reformat the raw
ISO-8601 timestamp through `format_datetime` (fixed display format on
parse success, the literal `"Unknown"` on any parse failure, never
raising), while volume and network records pass the raw backend string
through unchanged, substituting `"Unknown"` only when the field is
absent. -/
theorem C7_timestamp_formatting (cache : String → Option StatsEntry)
    (c : RawContainer) (img : RawImage) (v : RawVolume) (n : RawNetwork) (str : String) :
    (mkContainerRecord cache c).created = format_datetime c.created
    ∧ (mkImageRecord img).created = format_datetime img.created
    ∧ (mkVolumeRecord v).created = v.created_at.getD "Unknown"
    ∧ (mkNetworkRecord n).created = n.created.getD "Unknown"
    ∧ format_datetime str
        = (match parse_iso8601 str with
           | some d => strftime_display d
           | none => "Unknown")
    ∧ format_datetime "2024-01-15T10:30:00.123456789Z" = "2024-01-15 10:30:00"
    ∧ format_datetime "not-a-date" = "Unknown" := by
  exact ⟨rfl, rfl, rfl, rfl, rfl, by decide, by decide⟩

/-- Claim C8: the port formatter agrees with the spec's description
(comma-separated, `host:private` per bound port, bare `private` for
unbound ports), and on the two reference inputs:
`{"80/tcp": [{"HostPort": "8080"}]}` formats to `"8080:80/tcp"` and the
empty mapping formats to `""`. -/
theorem C8_format_ports_correct (ports : List (String × List PortBinding)) :
    format_ports ports = format_ports_spec ports
    ∧ format_ports [("80/tcp", [⟨"8080"⟩])] = "8080:80/tcp"
    ∧ format_ports [] = "" := by
  refine ⟨?_, by decide, by decide⟩
  cases ports with
  | nil => decide
  | cons p ps => simp [format_ports, format_ports_spec, List.isEmpty_iff]

lemma compute_cpu_percent_eq (a b c d : ℚ) :
    compute_cpu_percent a b c d
      = some (if 0 < c - d then (a - b) / (c - d) * 100 else 0) := by
  simp only [compute_cpu_percent, gt_iff_lt]
  split_ifs with h
  · simp [pydiv, ne_of_gt h]
  · rfl

lemma compute_memory_percent_eq (u : ℚ) (l : Option ℚ) :
    compute_memory_percent u l
      = some (u / (1024 * 1024),
          if 0 < (l.getD 1) / (1024 * 1024)
          then (u / (1024 * 1024)) / ((l.getD 1) / (1024 * 1024)) * 100
          else 0) := by
  simp only [compute_memory_percent, gt_iff_lt]
  split_ifs with h
  · simp [pydiv, ne_of_gt h]
  · rfl

lemma try_stats_entry_eq (st : RawStats) :
    try_stats_entry st
      = some ⟨round2 (if 0 < st.system_cpu - st.presystem_cpu
                      then (st.cpu_total - st.precpu_total)
                            / (st.system_cpu - st.presystem_cpu) * 100
                      else 0),
              round2 (st.mem_usage / (1024 * 1024)),
              round2 (if 0 < (st.mem_limit.getD 1) / (1024 * 1024)
                      then (st.mem_usage / (1024 * 1024))
                            / ((st.mem_limit.getD 1) / (1024 * 1024)) * 100
                      else 0)⟩ := by
  simp [try_stats_entry, compute_cpu_percent_eq, compute_memory_percent_eq]

lemma stats_entry_of_ok (st : RawStats) :
    stats_entry_of (.ok st)
      = ⟨round2 (if 0 < st.system_cpu - st.presystem_cpu
                 then (st.cpu_total - st.precpu_total)
                       / (st.system_cpu - st.presystem_cpu) * 100
                 else 0),
         round2 (st.mem_usage / (1024 * 1024)),
         round2 (if 0 < (st.mem_limit.getD 1) / (1024 * 1024)
                 then (st.mem_usage / (1024 * 1024))
                       / ((st.mem_limit.getD 1) / (1024 * 1024)) * 100
                 else 0)⟩ := by
  simp [stats_entry_of, try_stats_entry_eq]

lemma update_stats_cache_cons (c : RawContainer) (rest : List RawContainer)
    (cache : String → Option StatsEntry) :
    update_stats_cache (c :: rest) cache
      = update_stats_cache rest
          (fun k => if k = c.id then some (stats_entry_of c.stats) else cache k) := rfl

lemma update_stats_cache_not_mem (cs : List RawContainer)
    (cache : String → Option StatsEntry) (k : String)
    (h : k ∉ cs.map RawContainer.id) :
    update_stats_cache cs cache k = cache k := by
  induction cs generalizing cache with
  | nil => rfl
  | cons c rest ih =>
      rw [update_stats_cache_cons]
      simp only [List.map_cons, List.mem_cons, not_or] at h
      rw [ih _ h.2]
      simp [h.1]

lemma update_stats_cache_lookup (cs : List RawContainer)
    (cache : String → Option StatsEntry) (c : RawContainer)
    (hnd : (cs.map RawContainer.id).Nodup) (hc : c ∈ cs) :
    update_stats_cache cs cache c.id = some (stats_entry_of c.stats) := by
  induction cs generalizing cache with
  | nil => cases hc
  | cons c' rest ih =>
      rw [update_stats_cache_cons]
      simp only [List.map_cons, List.nodup_cons] at hnd
      rcases List.mem_cons.mp hc with h | h
      · subst h
        rw [update_stats_cache_not_mem _ _ _ hnd.1]
        simp
      · exact ih _ hnd.2 h

/-- Claim C5: a stale containers read over a batch with pairwise-distinct
ids returns one record per container; the `i`-th record's metrics are
exactly those derived from that container's own stats outcome, so one
container's stats failure yields the all-zero entry for it alone while a
successful sibling gets the fully computed metrics — the batch is never
aborted. -/
theorem C5_stats_isolation (s : DCState) (now : ℚ) (rc : List RawContainer)
    (i : Nat) (c : RawContainer) (msg : String) (st : RawStats)
    (hnd : (rc.map RawContainer.id).Nodup)
    (hmem : rc[i]? = some c)
    (hstale : cache_duration ≤ now - s.containers_slot.last_update) :
    (get_containers s now (.ok rc)).1
        = .ok (rc.map (mkContainerRecord (update_stats_cache rc s.container_stats_cache)))
    ∧ (rc.map (mkContainerRecord (update_stats_cache rc s.container_stats_cache))).length
        = rc.length
    ∧ (rc.map (mkContainerRecord (update_stats_cache rc s.container_stats_cache)))[i]?
        = some (mkContainerRecord (update_stats_cache rc s.container_stats_cache) c)
    ∧ (mkContainerRecord (update_stats_cache rc s.container_stats_cache) c).cpu
        = (stats_entry_of c.stats).cpu
    ∧ (mkContainerRecord (update_stats_cache rc s.container_stats_cache) c).memory
        = (stats_entry_of c.stats).memory
    ∧ (mkContainerRecord (update_stats_cache rc s.container_stats_cache) c).memory_percent
        = (stats_entry_of c.stats).memory_percent
    ∧ stats_entry_of (.error msg) = ⟨0, 0, 0⟩
    ∧ stats_entry_of (.ok st)
        = ⟨round2 (if 0 < st.system_cpu - st.presystem_cpu
                   then (st.cpu_total - st.precpu_total)
                         / (st.system_cpu - st.presystem_cpu) * 100
                   else 0),
           round2 (st.mem_usage / (1024 * 1024)),
           round2 (if 0 < (st.mem_limit.getD 1) / (1024 * 1024)
                   then (st.mem_usage / (1024 * 1024))
                         / ((st.mem_limit.getD 1) / (1024 * 1024)) * 100
                   else 0)⟩ := by
  have hmem' : c ∈ rc := List.getElem?_mem hmem
  have hl : update_stats_cache rc s.container_stats_cache c.id
      = some (stats_entry_of c.stats) :=
    update_stats_cache_lookup rc _ c hnd hmem'
  refine ⟨?_, by simp, ?_, ?_, ?_, ?_, rfl, stats_entry_of_ok st⟩
  · rw [get_containers_stale_ok s now rc (not_lt.mpr hstale)]
  · rw [List.getElem?_map, hmem]
    rfl
  · simp [mkContainerRecord, hl]
  · simp [mkContainerRecord, hl]
  · simp [mkContainerRecord, hl]

/-- A concrete stats sample for the claim-C5 witness. -/
def sample_stats : RawStats :=
  { cpu_total := 100, precpu_total := 40, system_cpu := 200, presystem_cpu := 80,
    mem_usage := 2097152, mem_limit := some 4194304 }

/-- A healthy container whose stats fetch succeeds. -/
def sample_container_web : RawContainer :=
  { id := "aaaaaaaaaaaaaaaa", name := "web", status := "running",
    image_tags := ["nginx:latest"], ports := [("80/tcp", [⟨"8080"⟩])],
    created := "2024-01-15T10:30:00Z", labels := [("app", "web")],
    stats := .ok sample_stats }

/-- A container whose stats fetch raised mid-batch. -/
def sample_container_down : RawContainer :=
  { id := "bbbbbbbbbbbbbbbb", name := "db", status := "exited",
    image_tags := [], ports := [],
    created := "2024-01-14T09:00:00Z", labels := [],
    stats := .error "container stopped mid-fetch" }

/-- A second healthy container. -/
def sample_container_cache : RawContainer :=
  { id := "cccccccccccccccc", name := "cache", status := "running",
    image_tags := ["redis:7"], ports := [("6379/tcp", [])],
    created := "2024-01-13T08:00:00Z", labels := [],
    stats := .ok sample_stats }

/-- The claim-C5 witness batch: one failing container between two healthy
ones. -/
def sample_batch : List RawContainer :=
  [sample_container_web, sample_container_down, sample_container_cache]

/-- Witness for claim C5 at a concrete input: a three-container batch
whose middle container's stats fetch fails. -/
theorem C5_stats_isolation_witness :
    ((sample_batch.map RawContainer.id).Nodup)
    ∧ sample_batch[1]? = some sample_container_down
    ∧ (cache_duration ≤ (10 : ℚ) - init_state.containers_slot.last_update)
    ∧ ((get_containers init_state 10 (.ok sample_batch)).1
          = .ok (sample_batch.map
              (mkContainerRecord (update_stats_cache sample_batch init_state.container_stats_cache)))
       ∧ (sample_batch.map
            (mkContainerRecord (update_stats_cache sample_batch init_state.container_stats_cache))).length
          = sample_batch.length
       ∧ (sample_batch.map
            (mkContainerRecord (update_stats_cache sample_batch init_state.container_stats_cache)))[1]?
          = some (mkContainerRecord
              (update_stats_cache sample_batch init_state.container_stats_cache)
              sample_container_down)
       ∧ (mkContainerRecord (update_stats_cache sample_batch init_state.container_stats_cache)
            sample_container_down).cpu
          = (stats_entry_of sample_container_down.stats).cpu
       ∧ (mkContainerRecord (update_stats_cache sample_batch init_state.container_stats_cache)
            sample_container_down).memory
          = (stats_entry_of sample_container_down.stats).memory
       ∧ (mkContainerRecord (update_stats_cache sample_batch init_state.container_stats_cache)
            sample_container_down).memory_percent
          = (stats_entry_of sample_container_down.stats).memory_percent
       ∧ stats_entry_of (.error "container stopped mid-fetch") = ⟨0, 0, 0⟩
       ∧ stats_entry_of (.ok sample_stats)
          = ⟨round2 (if 0 < sample_stats.system_cpu - sample_stats.presystem_cpu
                     then (sample_stats.cpu_total - sample_stats.precpu_total)
                           / (sample_stats.system_cpu - sample_stats.presystem_cpu) * 100
                     else 0),
             round2 (sample_stats.mem_usage / (1024 * 1024)),
             round2 (if 0 < (sample_stats.mem_limit.getD 1) / (1024 * 1024)
                     then (sample_stats.mem_usage / (1024 * 1024))
                           / ((sample_stats.mem_limit.getD 1) / (1024 * 1024)) * 100
                     else 0)⟩) :=
  ⟨by decide, rfl, by norm_num [cache_duration, init_state],
   C5_stats_isolation init_state 10 sample_batch 1 sample_container_down
     "container stopped mid-fetch" sample_stats (by decide) rfl
     (by norm_num [cache_duration, init_state])⟩

/-- Claim C10: a container whose image has an empty tag list gets the
literal `image = "unknown"` and otherwise the first tag, while an
untagged image record instead gets the sentinel `tags = ["<none>"]`. -/
theorem C10_image_tag_fields (cache : String → Option StatsEntry)
    (c : RawContainer) (img : RawImage) :
    (mkContainerRecord cache c).image
        = (match c.image_tags with
           | [] => "unknown"
           | t :: _ => t)
    ∧ (mkImageRecord img).tags = (if img.tags = [] then ["<none>"] else img.tags)
    ∧ (mkImageRecord { img with tags := [] }).tags = ["<none>"]
    ∧ ("unknown" : String) ∉ (mkImageRecord { img with tags := [] }).tags := by
  refine ⟨rfl, ?_, ?_, ?_⟩
  · obtain ⟨i, tg, sz, cr⟩ := img
    cases tg <;> simp [mkImageRecord]
  · simp [mkImageRecord]
  · simp [mkImageRecord]

end DockMan
